import Mathlib

/-!
Shallow embedding of the Eck business-school backend (TypeScript/Express/Prisma):
the registrations routes, the auth routes, the validation middleware, the
authentication/authorization middleware and the terminal error handler, together
with theorems about the claims made of them.

The relational store (Prisma) is embedded as explicit lists of records; each
route handler is a pure function from the store and the request data to the new
store and the HTTP response it produces.  Database-generated ids and the clock
are passed in as explicit arguments.  JavaScript string operations
(toLowerCase, startsWith, includes, substring) are embedded as character-list
functions with the ASCII semantics the source relies on.
-/

namespace Eck

/-- ASCII lower-casing of one character, as JavaScript toLowerCase acts on the
ASCII range used for emails in this codebase. -/
def lowerChar (c : Char) : Char :=
  if 65 ≤ c.toNat ∧ c.toNat ≤ 90 then Char.ofNat (c.toNat + 32) else c

/-- Embedding of JavaScript String.prototype.toLowerCase (ASCII range). -/
def jsToLower (s : String) : String := String.mk (s.data.map lowerChar)

/-- Does the first character list lead the second one? -/
def startsWithChars : List Char → List Char → Bool
  | [], _ => true
  | _ :: _, [] => false
  | a :: as, b :: bs => a == b && startsWithChars as bs

/-- Embedding of JavaScript String.prototype.startsWith. -/
def jsStartsWith (s lead : String) : Bool := startsWithChars lead.data s.data

/-- Does the pattern occur somewhere in the character list? -/
def containsChars (pat : List Char) : List Char → Bool
  | [] => pat.isEmpty
  | c :: t => startsWithChars pat (c :: t) || containsChars pat t

/-- Embedding of JavaScript String.prototype.includes. -/
def jsIncludes (s pat : String) : Bool := containsChars pat.data s.data

/-- Embedding of JavaScript String.prototype.substring(n). -/
def jsSubstrFrom (s : String) (n : Nat) : String := String.mk (s.data.drop n)

/-- JavaScript truthiness of an optional string: undefined and the empty
string are falsy. -/
def strTruthy : Option String → Bool
  | none => false
  | some s => !(s == "")

/-- Case-insensitive containment, as Prisma contains with mode insensitive. -/
def containsInsensitive (s pat : String) : Bool :=
  jsIncludes (jsToLower s) (jsToLower pat)

/-- A row of the User table (fields used by the embedded handlers). -/
structure User where
  id : String
  email : String
  password : String
  firstName : String
  lastName : String
  phone : Option String
  role : String
  status : String
deriving DecidableEq

/-- A row of the Student table: the 1:1 profile linked to a User. -/
structure Student where
  id : String
  userId : String
  dateOfBirth : Option String
  gender : Option String
  nationality : Option String
  address : Option String
  city : Option String
  state : Option String
  postalCode : Option String
  country : Option String
  emergencyContactName : Option String
  emergencyContactPhone : Option String
  emergencyContactEmail : Option String
  previousEducation : Option String
  workExperience : Option String
deriving DecidableEq

/-- A row of the Course table (fields the embedded handlers read; fields used
only for response serialization are elided). -/
structure Course where
  id : String
  title : String
deriving DecidableEq

/-- A row of the CourseModule table. -/
structure CourseModule where
  id : String
  courseId : String
deriving DecidableEq

/-- A row of the Lesson table. -/
structure Lesson where
  id : String
  moduleId : String
deriving DecidableEq

/-- A row of the Registration table. -/
structure Registration where
  id : String
  studentId : String
  courseId : String
  status : String
  message : Option String
  rejectionReason : Option String
  reviewedBy : Option String
  reviewedAt : Option String
deriving DecidableEq

/-- A row of the Enrollment table (fields the approve handler writes). -/
structure Enrollment where
  studentId : String
  courseId : String
  status : String
  paymentStatus : String
deriving DecidableEq

/-- A row of the StudentProgress table (fields the approve handler writes). -/
structure StudentProgress where
  studentId : String
  courseId : String
  totalLessons : Nat
deriving DecidableEq

/-- The relational store: one list per table. -/
structure DB where
  users : List User
  students : List Student
  courses : List Course
  modules : List CourseModule
  lessons : List Lesson
  registrations : List Registration
  enrollments : List Enrollment
  progresses : List StudentProgress
deriving DecidableEq

/-- Embedding of prisma.lesson.count with where module.courseId = courseId. -/
def lessonCountForCourse (db : DB) (courseId : String) : Nat :=
  (db.lessons.filter (fun l =>
    (db.modules.find? (fun m => m.id == l.moduleId)).any
      (fun m => m.courseId == courseId))).length

/-- Embedding of prisma.registration.findFirst with where studentId, courseId
and status in PENDING, APPROVED. -/
def findExistingRegistration (db : DB) (studentId courseId : String) :
    Option Registration :=
  db.registrations.find? (fun r =>
    r.studentId == studentId && r.courseId == courseId &&
      (r.status == "PENDING" || r.status == "APPROVED"))

/-- How many PENDING-or-APPROVED registrations a student-course pair has. -/
def pendingApprovedCount (db : DB) (studentId courseId : String) : Nat :=
  (db.registrations.filter (fun r =>
    r.studentId == studentId && r.courseId == courseId &&
      (r.status == "PENDING" || r.status == "APPROVED"))).length

/-- The invariant: at most one PENDING-or-APPROVED registration per
student-course pair. -/
def registrationInvariant (db : DB) : Prop :=
  ∀ studentId courseId, pendingApprovedCount db studentId courseId ≤ 1

/-- Embedding of the Joi schema registrationActionValidation: action must be
approve or reject; message is required with length 10..500 when the action is
reject, and is an optional (non-empty, at most 500 characters) string
otherwise. -/
def registrationActionValidation (action : Option String)
    (message : Option String) : Bool :=
  match action with
  | none => false
  | some a =>
    (a == "approve" || a == "reject") &&
    (if a == "reject" then
      match message with
      | none => false
      | some m => decide (10 ≤ m.length) && decide (m.length ≤ 500)
    else
      match message with
      | none => true
      | some m => decide (1 ≤ m.length) && decide (m.length ≤ 500))

/-- The raw query of GET /registrations, before validation: the fields of the
Joi schemas paginationValidation and searchValidation (dates embedded as epoch
integers). -/
structure RegListQuery where
  page : Option Int
  limit : Option Int
  sortBy : Option String
  sortOrder : Option String
  q : Option String
  status : Option String
  startDate : Option Int
  endDate : Option Int
deriving DecidableEq

/-- The validated query of GET /registrations, with Joi defaults applied. -/
structure ValidatedRegListQuery where
  page : Nat
  limit : Nat
  sortBy : Option String
  sortOrder : String
  q : Option String
  status : Option String
deriving DecidableEq

/-- Embedding of the Joi schema paginationValidation concatenated with
searchValidation, as validateQuery applies it to GET /registrations: page at
least 1 defaulting to 1, limit between 1 and 100 defaulting to 10, sortOrder
asc or desc defaulting to desc, q an optional string of 1..100 characters,
status and sortBy optional non-empty strings, endDate at least startDate. -/
def regListQueryValidation (raw : RegListQuery) :
    Option ValidatedRegListQuery :=
  if (1 ≤ raw.page.getD 1 ∧ 1 ≤ raw.limit.getD 10 ∧ raw.limit.getD 10 ≤ 100 ∧
      (raw.sortOrder.getD "desc" = "asc" ∨ raw.sortOrder.getD "desc" = "desc") ∧
      (∀ s ∈ raw.sortBy, 1 ≤ s.length) ∧
      (∀ s ∈ raw.q, 1 ≤ s.length ∧ s.length ≤ 100) ∧
      (∀ s ∈ raw.status, 1 ≤ s.length) ∧
      (∀ a ∈ raw.startDate, ∀ b ∈ raw.endDate, a ≤ b)) then
    some { page := (raw.page.getD 1).toNat, limit := (raw.limit.getD 10).toNat,
           sortBy := raw.sortBy, sortOrder := raw.sortOrder.getD "desc",
           q := raw.q, status := raw.status }
  else
    none

/-- The response of the registration action handler: the 400 produced by the
validate middleware, a thrown CustomError as normalized to status, code and
message, or the success body built around the updated registration. -/
inductive RegActionResp where
  | validationFailed : RegActionResp
  | err (statusCode : Nat) (code : String) (message : String) : RegActionResp
  | ok (registration : Registration) : RegActionResp
deriving DecidableEq

/-- Embedding of the PATCH /registrations/:id/action handler body (after
authenticateUser, requireAdmin and validation): look up the registration with
its student, user and course relations, reject a missing registration with
404 and a non-PENDING one with 400, then update the registration and, on
approve, activate an INACTIVE user and create the enrollment and the initial
progress record.  The relation lookups mirror the Prisma include; their none
branches are unreachable when the store satisfies the foreign-key constraints
Prisma enforces.  adminId is req.user.id and now is the new Date() value. -/
def registrationAction (db : DB) (adminId : String) (id : String)
    (now : String) (action : String) (message : Option String) :
    DB × RegActionResp :=
  match db.registrations.find? (fun r => r.id == id) with
  | none => (db, .err 404 "REGISTRATION_NOT_FOUND" "Registration not found")
  | some registration =>
    match db.students.find? (fun s => s.id == registration.studentId) with
    | none => (db, .err 500 "INTERNAL_ERROR" "Internal server error")
    | some student =>
      match db.users.find? (fun u => u.id == student.userId) with
      | none => (db, .err 500 "INTERNAL_ERROR" "Internal server error")
      | some user =>
        match db.courses.find? (fun c => c.id == registration.courseId) with
        | none => (db, .err 500 "INTERNAL_ERROR" "Internal server error")
        | some course =>
          if registration.status != "PENDING" then
            (db, .err 400 "REGISTRATION_PROCESSED"
              "Registration has already been processed")
          else
            let updatedReg : Registration :=
              { registration with
                  status := if action == "approve" then "APPROVED" else "REJECTED",
                  reviewedBy := some adminId,
                  reviewedAt := some now,
                  rejectionReason :=
                    if action == "reject" && strTruthy message then message
                    else registration.rejectionReason }
            let db1 : DB :=
              { db with registrations :=
                  db.registrations.map (fun r => if r.id == id then updatedReg else r) }
            if action == "approve" then
              let db2 : DB :=
                if user.status == "INACTIVE" then
                  { db1 with users :=
                      db1.users.map (fun u =>
                        if u.id == user.id then { u with status := "ACTIVE" } else u) }
                else db1
              let db3 : DB :=
                { db2 with enrollments :=
                    db2.enrollments ++
                      [{ studentId := student.id, courseId := course.id,
                         status := "ACTIVE", paymentStatus := "PENDING" }] }
              let totalLessons := lessonCountForCourse db3 course.id
              let db4 : DB :=
                { db3 with progresses :=
                    db3.progresses ++
                      [{ studentId := student.id, courseId := course.id,
                         totalLessons := totalLessons }] }
              (db4, .ok updatedReg)
            else
              (db1, .ok updatedReg)

/-- The PATCH /registrations/:id/action route: the validate middleware runs
registrationActionValidation on the body and responds 400 on failure,
otherwise the handler runs. -/
def patchRegistrationAction (db : DB) (adminId : String) (id : String)
    (now : String) (action : Option String) (message : Option String) :
    DB × RegActionResp :=
  if registrationActionValidation action message then
    registrationAction db adminId id now (action.getD "") message
  else
    (db, .validationFailed)

/-- The body of a POST /registrations request, after the
studentRegistrationValidation schema has accepted it. -/
structure PostRegInput where
  firstName : String
  lastName : String
  email : String
  phone : Option String
  dateOfBirth : Option String
  gender : Option String
  nationality : Option String
  address : Option String
  city : Option String
  state : Option String
  postalCode : Option String
  country : Option String
  emergencyContactName : Option String
  emergencyContactPhone : Option String
  emergencyContactEmail : Option String
  previousEducation : Option String
  workExperience : Option String
  courseId : String
  message : Option String
deriving DecidableEq

/-- The student profile row created by POST /registrations from the request
body. -/
def mkStudentFromInput (id userId : String) (input : PostRegInput) : Student :=
  { id := id, userId := userId, dateOfBirth := input.dateOfBirth,
    gender := input.gender, nationality := input.nationality,
    address := input.address, city := input.city, state := input.state,
    postalCode := input.postalCode, country := input.country,
    emergencyContactName := input.emergencyContactName,
    emergencyContactPhone := input.emergencyContactPhone,
    emergencyContactEmail := input.emergencyContactEmail,
    previousEducation := input.previousEducation,
    workExperience := input.workExperience }

/-- The response of the POST /registrations handler. -/
inductive PostRegResp where
  | err (statusCode : Nat) (code : String) (message : String) : PostRegResp
  | created (registration : Registration) : PostRegResp
deriving DecidableEq

/-- The PENDING registration row POST /registrations creates for a resolved
student id and request body. -/
def newRegistrationRecord (studentId : String) (input : PostRegInput)
    (freshRegId : String) : Registration :=
  { id := freshRegId, studentId := studentId, courseId := input.courseId,
    status := "PENDING", message := input.message,
    rejectionReason := none, reviewedBy := none, reviewedAt := none }

/-- The tail of the POST /registrations handler once the student id is
resolved: findFirst an existing PENDING-or-APPROVED registration for the
student-course pair, respond 409 if one exists, otherwise create the PENDING
registration. -/
def createRegistrationIfAbsent (db : DB) (studentId : String)
    (input : PostRegInput) (freshRegId : String) : DB × PostRegResp :=
  match findExistingRegistration db studentId input.courseId with
  | some _ =>
    (db, .err 409 "REGISTRATION_EXISTS"
      "A registration for this course already exists")
  | none =>
    let reg := newRegistrationRecord studentId input freshRegId
    ({ db with registrations := db.registrations ++ [reg] }, .created reg)

/-- Embedding of the POST /registrations handler body: check the course
exists, resolve or create the user and student rows (a user created here gets
the placeholder password and INACTIVE status), then create the registration
unless a PENDING-or-APPROVED one already exists for the pair.  freshUserId,
freshStudentId and freshRegId are the ids the database would generate. -/
def postRegistration (db : DB) (input : PostRegInput)
    (freshUserId freshStudentId freshRegId : String) : DB × PostRegResp :=
  match db.courses.find? (fun c => c.id == input.courseId) with
  | none => (db, .err 404 "COURSE_NOT_FOUND" "Course not found")
  | some _course =>
    match db.users.find? (fun u => u.email == jsToLower input.email) with
    | some existingUser =>
      match db.students.find? (fun s => s.userId == existingUser.id) with
      | some existingStudent =>
        createRegistrationIfAbsent db existingStudent.id input freshRegId
      | none =>
        let student := mkStudentFromInput freshStudentId existingUser.id input
        createRegistrationIfAbsent
          { db with students := db.students ++ [student] }
          student.id input freshRegId
    | none =>
      let user : User :=
        { id := freshUserId, email := jsToLower input.email,
          password := "temp_password_will_be_set_on_approval",
          firstName := input.firstName, lastName := input.lastName,
          phone := input.phone, role := "STUDENT", status := "INACTIVE" }
      let student := mkStudentFromInput freshStudentId freshUserId input
      createRegistrationIfAbsent
        { db with users := db.users ++ [user],
                  students := db.students ++ [student] }
        student.id input freshRegId

/-- The response of POST /auth/login. -/
inductive LoginResp where
  | err (statusCode : Nat) (code : String) (message : String) : LoginResp
  | ok (user : User) : LoginResp
deriving DecidableEq

/-- Embedding of the POST /auth/login handler body: find the user by
lower-cased email, reject an unknown email with 401 INVALID_CREDENTIALS,
reject a non-ACTIVE account with 401 ACCOUNT_INACTIVE before any password
comparison, then compare the password with bcrypt (passed in abstractly as
comparePassword). -/
def login (db : DB) (comparePassword : String → String → Bool)
    (email password : String) : LoginResp :=
  match db.users.find? (fun u => u.email == jsToLower email) with
  | none => .err 401 "INVALID_CREDENTIALS" "Invalid email or password"
  | some user =>
    if user.status != "ACTIVE" then
      .err 401 "ACCOUNT_INACTIVE" "Account is inactive. Please contact support."
    else if !(comparePassword password user.password) then
      .err 401 "INVALID_CREDENTIALS" "Invalid email or password"
    else
      .ok user

/-- The where clause of GET /registrations: the optional status filter and the
optional case-insensitive search over the user names of the student and email and
the course title. -/
def registrationMatchesSearch (db : DB) (term : String) (r : Registration) :
    Bool :=
  (match db.students.find? (fun s => s.id == r.studentId) with
   | some s =>
     match db.users.find? (fun u => u.id == s.userId) with
     | some u =>
       containsInsensitive u.firstName term ||
       containsInsensitive u.lastName term ||
       containsInsensitive u.email term
     | none => false
   | none => false) ||
  (match db.courses.find? (fun c => c.id == r.courseId) with
   | some c => containsInsensitive c.title term
   | none => false)

/-- The rows GET /registrations selects before ordering and pagination. -/
def getRegistrationsWhere (db : DB) (status : Option String)
    (term : Option String) : List Registration :=
  db.registrations.filter (fun r =>
    (match status with
     | some st => r.status == st
     | none => true) &&
    (match term with
     | some t => registrationMatchesSearch db t r
     | none => true))

/-- The response of GET /registrations. -/
inductive RegListResp where
  | invalidQuery : RegListResp
  | ok (items : List Registration) (page limit total pages : Nat) : RegListResp
deriving DecidableEq

/-- Embedding of the GET /registrations handler (after authenticateUser and
requireAdmin): validate the query, filter by status and search term, apply
the database ordering (abstracted as orderBy, since Prisma sorts by a dynamic
column), skip (page - 1) * limit rows, take limit rows, and report the
pagination block with pages = ceil(total / limit) embedded as Nat ceiling
division. -/
def getRegistrations (db : DB) (orderBy : List Registration → List Registration)
    (raw : RegListQuery) : RegListResp :=
  match regListQueryValidation raw with
  | none => .invalidQuery
  | some v =>
    let offset := (v.page - 1) * v.limit
    let rows := getRegistrationsWhere db v.status v.q
    let items := ((orderBy rows).drop offset).take v.limit
    let total := rows.length
    .ok items v.page v.limit total ((total + v.limit - 1) / v.limit)

/-- The payload jwt.verify yields for a well-formed token. -/
structure JWTPayload where
  userId : String
  email : String
  role : String
deriving DecidableEq

/-- The outcomes of jwt.verify on a token string, with the secret configured:
a TokenExpiredError, a JsonWebTokenError, or the decoded payload. -/
inductive TokenVerify where
  | expired : TokenVerify
  | invalid : TokenVerify
  | valid (payload : JWTPayload) : TokenVerify
deriving DecidableEq

/-- The identity authenticateUser attaches to the request. -/
structure AttachedUser where
  id : String
  email : String
  role : String
  status : String
deriving DecidableEq

/-- What a middleware does with a request: respond with a status, error and
message, or pass control to the next stage (for authenticateUser, with the
attached identity). -/
inductive AuthResult where
  | respond (statusCode : Nat) (error message : String) : AuthResult
  | next (user : AttachedUser) : AuthResult
deriving DecidableEq

/-- Embedding of the authenticateUser middleware: reject a missing or
non-Bearer Authorization header, verify the token (verifyToken abstracted as
the verify argument), reject expired and invalid tokens with distinct
messages, look the userId of the payload up in the users table, reject a missing
or non-ACTIVE user, and otherwise attach id, email, role and status and call
through. -/
def authenticateUser (db : DB) (verify : String → TokenVerify)
    (authHeader : Option String) : AuthResult :=
  match authHeader with
  | none =>
    .respond 401 "Authentication required"
      "Please provide a valid authentication token"
  | some h =>
    if !(jsStartsWith h "Bearer ") then
      .respond 401 "Authentication required"
        "Please provide a valid authentication token"
    else
      match verify (jsSubstrFrom h 7) with
      | .expired =>
        .respond 401 "Token expired"
          "Your session has expired. Please log in again."
      | .invalid =>
        .respond 401 "Invalid token" "Authentication token is invalid"
      | .valid payload =>
        match db.users.find? (fun u => u.id == payload.userId) with
        | none => .respond 401 "Invalid token" "User not found"
        | some user =>
          if user.status != "ACTIVE" then
            .respond 401 "Account inactive" "Your account has been deactivated"
          else
            .next { id := user.id, email := user.email, role := user.role,
                    status := user.status }

/-- What a role gate does with a request: respond 401 or 403, or call
through unchanged. -/
inductive GateResult where
  | respond (statusCode : Nat) (error : String) : GateResult
  | next : GateResult
deriving DecidableEq

/-- Embedding of the requireRole middleware factory: 401 when no identity is
attached, 403 when the attached role is not in the list, next otherwise. -/
def requireRole (roles : List String) (user : Option AttachedUser) :
    GateResult :=
  match user with
  | none => .respond 401 "Authentication required"
  | some u =>
    if !(roles.contains u.role) then
      .respond 403 "Insufficient permissions"
    else
      .next

/-- Embedding of the requireSelfOrAdmin middleware factory: 401 when no
identity is attached, then call through exactly when the caller is an ADMIN
or the id of the caller equals the route parameter named by userIdParam (an
absent parameter never equals the id of the caller, as in JavaScript). -/
def requireSelfOrAdmin (userIdParam : String)
    (params : List (String × String)) (user : Option AttachedUser) :
    GateResult :=
  match user with
  | none => .respond 401 "Authentication required"
  | some u =>
    let targetUserId := (params.find? (fun p => p.1 == userIdParam)).map
      (fun p => p.2)
    let isAdmin := u.role == "ADMIN"
    let isSelf := some u.id == targetUserId
    if !isAdmin && !isSelf then
      .respond 403 "Access denied"
    else
      .next

/-- Which instanceof tests an error value satisfies in the errorHandler
chain: a CustomError carrying its own status and code, a
PrismaClientKnownRequestError carrying a Prisma error code and an optional
meta.target array, the Prisma validation and initialization error classes, a
SyntaxError that has a body property (a JSON parse failure), or none of
these. -/
inductive ErrClass where
  | customError (statusCode : Nat) (code : String) : ErrClass
  | prismaKnownRequest (prismaCode : String)
      (metaTarget : Option (List String)) : ErrClass
  | prismaValidation : ErrClass
  | prismaInitialization : ErrClass
  | syntaxErrorWithBody : ErrClass
  | plain : ErrClass
deriving DecidableEq

/-- An arbitrary JavaScript error value as the errorHandler observes it: its
class, name, message, optional stack, optional code property (multer) and
optional numeric statusCode property. -/
structure Err where
  cls : ErrClass
  name : String
  message : String
  stack : Option String
  code : Option String
  statusCode : Option Nat
deriving DecidableEq

/-- The structured details field of an error response. -/
inductive ErrDetails where
  | uniqueConstraint (field : String) : ErrDetails
  | prismaCode (code : String) : ErrDetails
deriving DecidableEq

/-- The JSON body the errorHandler sends, together with the HTTP status. -/
structure ErrResponse where
  statusCode : Nat
  error : String
  code : String
  details : Option ErrDetails
  stack : Option String
  originalError : Option String
deriving DecidableEq

/-- The resolution chain of the errorHandler middleware: inspect the class,
name, code and statusCode properties of the error value in the order the
source checks them, producing a status code, message, code string and details,
defaulting to 500 INTERNAL_ERROR with the message of the error itself when no
category matches. -/
def errorResolve (e : Err) : Nat × String × String × Option ErrDetails :=
  match e.cls with
    | .customError sc c => (sc, e.message, c, none)
    | .prismaKnownRequest pc target =>
      if pc == "P2002" then
        let field := match target with
          | none => "field"
          | some ts => ts.headD "undefined"
        (409, s!"A record with this {field} already exists",
          "DUPLICATE_ENTRY", some (.uniqueConstraint field))
      else if pc == "P2014" then
        (400, "Invalid relation: required field is missing",
          "INVALID_RELATION", none)
      else if pc == "P2003" then
        (400, "Invalid reference: related record does not exist",
          "FOREIGN_KEY_VIOLATION", none)
      else if pc == "P2025" then
        (404, "Record not found", "NOT_FOUND", none)
      else if pc == "P2021" then
        (500, "Database configuration error", "DATABASE_ERROR", none)
      else if pc == "P2022" then
        (500, "Database schema error", "DATABASE_ERROR", none)
      else
        (500, "Database operation failed", "DATABASE_ERROR",
          some (.prismaCode pc))
    | .prismaValidation => (400, "Invalid data provided", "VALIDATION_ERROR", none)
    | .prismaInitialization =>
      (503, "Database connection failed", "DATABASE_CONNECTION_ERROR", none)
    | .syntaxErrorWithBody => (400, "Invalid JSON format", "INVALID_JSON", none)
    | .plain =>
      if e.name == "JsonWebTokenError" then
        (401, "Invalid authentication token", "INVALID_TOKEN", none)
      else if e.name == "TokenExpiredError" then
        (401, "Authentication token has expired", "TOKEN_EXPIRED", none)
      else if e.name == "MulterError" then
        let m :=
          if e.code == some "LIMIT_FILE_SIZE" then "File size too large"
          else if e.code == some "LIMIT_FILE_COUNT" then "Too many files uploaded"
          else if e.code == some "LIMIT_UNEXPECTED_FILE" then "Unexpected file field"
          else "File upload error"
        (400, m, "UPLOAD_ERROR", none)
      else
        match e.statusCode with
        | some sc =>
          if sc != 0 then (sc, e.message, "INTERNAL_ERROR", none)
          else if !(e.message == "") then
            (500, e.message, "INTERNAL_ERROR", none)
          else
            (500, "Internal server error", "INTERNAL_ERROR", none)
        | none =>
          if !(e.message == "") then
            (500, e.message, "INTERNAL_ERROR", none)
          else
            (500, "Internal server error", "INTERNAL_ERROR", none)

/-- Embedding of the errorHandler middleware: resolve the error, then, in
production, replace the message of any 5xx response with a generic string and
drop the details; the stack and the original message are included exactly
when env is development. -/
def errorHandler (env : String) (e : Err) : ErrResponse :=
  let resolved := errorResolve e
  let statusCode := resolved.1
  let message := resolved.2.1
  let code := resolved.2.2.1
  let details := resolved.2.2.2
  let hidden := env == "production" && decide (500 ≤ statusCode)
  { statusCode := statusCode,
    error := if hidden then "Something went wrong. Please try again later."
             else message,
    code := code,
    details := if hidden then none else details,
    stack := if env == "development" then e.stack else none,
    originalError := if env == "development" then some e.message else none }

/-- No category of the errorHandler chain recognizes this error: it is not an
instance of any checked class, its name matches no JWT or multer check, and
it has no truthy statusCode property. -/
def errUnrecognized (e : Err) : Bool :=
  (match e.cls with
   | .plain => true
   | _ => false) &&
  !(e.name == "JsonWebTokenError") &&
  !(e.name == "TokenExpiredError") &&
  !(e.name == "MulterError") &&
  (match e.statusCode with
   | none => true
   | some n => n == 0)

/-- A concrete INACTIVE student user for evaluating the theorems. -/
def testUser : User :=
  { id := "u1", email := "alice@ex.com", password := "pw1", firstName := "Alice",
    lastName := "Ang", phone := none, role := "STUDENT", status := "INACTIVE" }

/-- A concrete ACTIVE admin user. -/
def testAdmin : User :=
  { id := "adm", email := "admin@ex.com", password := "pw2", firstName := "Ada",
    lastName := "Admin", phone := none, role := "ADMIN", status := "ACTIVE" }

/-- The student profile of testUser. -/
def testStudent : Student :=
  { id := "s1", userId := "u1", dateOfBirth := none, gender := none,
    nationality := none, address := none, city := none, state := none,
    postalCode := none, country := none, emergencyContactName := none,
    emergencyContactPhone := none, emergencyContactEmail := none,
    previousEducation := none, workExperience := none }

/-- A concrete course. -/
def testCourse : Course := { id := "c1", title := "Business Foundations" }

/-- A concrete PENDING registration of testStudent for testCourse. -/
def testReg : Registration :=
  { id := "r1", studentId := "s1", courseId := "c1", status := "PENDING",
    message := none, rejectionReason := none, reviewedBy := none,
    reviewedAt := none }

/-- A concrete store: one admin, one inactive student user with a PENDING
registration for a course of two modules and three lessons. -/
def testDB : DB :=
  { users := [testAdmin, testUser],
    students := [testStudent],
    courses := [testCourse],
    modules := [{ id := "m1", courseId := "c1" }, { id := "m2", courseId := "c1" }],
    lessons := [{ id := "l1", moduleId := "m1" }, { id := "l2", moduleId := "m1" },
                { id := "l3", moduleId := "m2" }],
    registrations := [testReg],
    enrollments := [],
    progresses := [] }

/-- C1: approving a PENDING registration marks it APPROVED, activates the
linked user exactly when the user was INACTIVE (otherwise the users table is
untouched), and appends exactly one enrollment and exactly one progress
record for the student-course pair, the totalLessons of the progress record being the number of lessons in the
modules of the course. -/
theorem approve_pending_registration
    (db : DB) (adminId regId now : String) (msg : Option String)
    (r : Registration) (s : Student) (u : User) (c : Course)
    (hreg : db.registrations.find? (fun x => x.id == regId) = some r)
    (hs : db.students.find? (fun x => x.id == r.studentId) = some s)
    (hu : db.users.find? (fun x => x.id == s.userId) = some u)
    (hc : db.courses.find? (fun x => x.id == r.courseId) = some c)
    (hpending : r.status = "PENDING") :
    ((registrationAction db adminId regId now "approve" msg).1.registrations.find?
        (fun x => x.id == regId) =
      some { r with status := "APPROVED", reviewedBy := some adminId,
                    reviewedAt := some now }) ∧
    (u.status = "INACTIVE" →
      (registrationAction db adminId regId now "approve" msg).1.users.find?
          (fun x => x.id == u.id) = some { u with status := "ACTIVE" }) ∧
    (u.status ≠ "INACTIVE" →
      (registrationAction db adminId regId now "approve" msg).1.users = db.users) ∧
    ((registrationAction db adminId regId now "approve" msg).1.enrollments =
      db.enrollments ++
        [{ studentId := r.studentId, courseId := r.courseId,
           status := "ACTIVE", paymentStatus := "PENDING" }]) ∧
    ((registrationAction db adminId regId now "approve" msg).1.progresses =
      db.progresses ++
        [{ studentId := r.studentId, courseId := r.courseId,
           totalLessons := lessonCountForCourse db r.courseId }]) := by
  have hrid : r.id = regId := by simpa using List.find?_some hreg
  have hsid : s.id = r.studentId := by simpa using List.find?_some hs
  have hcid : c.id = r.courseId := by simpa using List.find?_some hc
  have huid : u.id = s.userId := by simpa using List.find?_some hu
  have hu2 : db.users.find? (fun x => x.id == u.id) = some u := by
    rw [huid]; exact hu
  by_cases hst : u.status = "INACTIVE"
  · simp only [registrationAction, hreg, hs, hu, hc, hpending, hst]
    simp
    refine ⟨⟨r, ?_, ?_⟩, ⟨u, ?_, ?_⟩, ⟨hsid, hcid⟩, hsid, hcid, ?_⟩
    · have hpf : ((fun x : Registration => x.id == regId) ∘
          (fun r_1 => if r_1.id = regId then
            { r with status := "APPROVED", reviewedBy := some adminId,
                     reviewedAt := some now }
            else r_1)) = (fun x : Registration => x.id == regId) := by
        funext x
        by_cases hx : x.id = regId <;> simp [hx, hrid]
      rw [hpf]
      exact hreg
    · intro hcontra
      exact absurd hrid hcontra
    · have hpf : ((fun x : User => x.id == u.id) ∘
          (fun u_1 => if u_1.id = u.id then { u_1 with status := "ACTIVE" }
            else u_1)) = (fun x : User => x.id == u.id) := by
        funext x
        by_cases hx : x.id = u.id <;> simp [hx]
      rw [hpf]
      exact hu2
    · simp
    · simp [lessonCountForCourse, hcid]
  · simp only [registrationAction, hreg, hs, hu, hc, hpending]
    simp [hst]
    refine ⟨⟨r, ?_, ?_⟩, ⟨hsid, hcid⟩, hsid, hcid, ?_⟩
    · have hpf : ((fun x : Registration => x.id == regId) ∘
          (fun r_1 => if r_1.id = regId then
            { r with status := "APPROVED", reviewedBy := some adminId,
                     reviewedAt := some now }
            else r_1)) = (fun x : Registration => x.id == regId) := by
        funext x
        by_cases hx : x.id = regId <;> simp [hx, hrid]
      rw [hpf]
      exact hreg
    · intro hcontra
      exact absurd hrid hcontra
    · simp [lessonCountForCourse, hcid]

/-- Witness for C1 on the concrete store: approving the PENDING registration
r1 marks it APPROVED, activates the INACTIVE user, and appends the enrollment
and the three-lesson progress record. -/
theorem approve_pending_registration_witness :
    ((registrationAction testDB "adm" "r1" "t0" "approve" none).1.registrations.find?
        (fun x => x.id == "r1") =
      some { testReg with status := "APPROVED", reviewedBy := some "adm",
                          reviewedAt := some "t0" }) ∧
    ((registrationAction testDB "adm" "r1" "t0" "approve" none).1.users.find?
        (fun x => x.id == testUser.id) =
      some { testUser with status := "ACTIVE" }) ∧
    ((registrationAction testDB "adm" "r1" "t0" "approve" none).1.enrollments =
      testDB.enrollments ++
        [{ studentId := testReg.studentId, courseId := testReg.courseId,
           status := "ACTIVE", paymentStatus := "PENDING" }]) ∧
    ((registrationAction testDB "adm" "r1" "t0" "approve" none).1.progresses =
      testDB.progresses ++
        [{ studentId := testReg.studentId, courseId := testReg.courseId,
           totalLessons := lessonCountForCourse testDB testReg.courseId }]) :=
  ⟨(approve_pending_registration testDB "adm" "r1" "t0" none
      testReg testStudent testUser testCourse rfl rfl rfl rfl rfl).1,
   (approve_pending_registration testDB "adm" "r1" "t0" none
      testReg testStudent testUser testCourse rfl rfl rfl rfl rfl).2.1 rfl,
   (approve_pending_registration testDB "adm" "r1" "t0" none
      testReg testStudent testUser testCourse rfl rfl rfl rfl rfl).2.2.2.1,
   (approve_pending_registration testDB "adm" "r1" "t0" none
      testReg testStudent testUser testCourse rfl rfl rfl rfl rfl).2.2.2.2⟩


/-- The concrete registration r1 already APPROVED. -/
def testRegApproved : Registration := { testReg with status := "APPROVED" }

/-- The concrete store after r1 has been processed. -/
def testDBProcessed : DB := { testDB with registrations := [testRegApproved] }

/-- C10: acting on an existing registration whose status is not PENDING fails
with 400 REGISTRATION_PROCESSED and returns the store unchanged: the error is
thrown before any write. -/
theorem nonpending_action_unchanged
    (db : DB) (adminId regId now action : String) (msg : Option String)
    (r : Registration) (s : Student) (u : User) (c : Course)
    (hreg : db.registrations.find? (fun x => x.id == regId) = some r)
    (hs : db.students.find? (fun x => x.id == r.studentId) = some s)
    (hu : db.users.find? (fun x => x.id == s.userId) = some u)
    (hc : db.courses.find? (fun x => x.id == r.courseId) = some c)
    (hnp : r.status ≠ "PENDING") :
    registrationAction db adminId regId now action msg =
      (db, .err 400 "REGISTRATION_PROCESSED"
        "Registration has already been processed") := by
  simp [registrationAction, hreg, hs, hu, hc, hnp]

/-- Witness for C10 on the concrete store: approving the already-APPROVED
registration r1 responds 400 REGISTRATION_PROCESSED and leaves the store as
it was. -/
theorem nonpending_action_unchanged_witness :
    registrationAction testDBProcessed "adm" "r1" "t0" "approve" none =
      (testDBProcessed, .err 400 "REGISTRATION_PROCESSED"
        "Registration has already been processed") :=
  nonpending_action_unchanged testDBProcessed "adm" "r1" "t0" "approve" none
    testRegApproved testStudent testUser testCourse rfl rfl rfl rfl (by decide)

/-- C7: rejecting without a message, or with one shorter than 10 characters,
fails validation with the 400 validation response and leaves the store
unchanged; a rejection message of 10 to 500 characters passes validation and
is stored as the rejectionReason of the registration; the message is optional when
the action is approve. -/
theorem reject_message_validation
    (db : DB) (adminId regId now : String)
    (r : Registration) (s : Student) (u : User) (c : Course)
    (hreg : db.registrations.find? (fun x => x.id == regId) = some r)
    (hs : db.students.find? (fun x => x.id == r.studentId) = some s)
    (hu : db.users.find? (fun x => x.id == s.userId) = some u)
    (hc : db.courses.find? (fun x => x.id == r.courseId) = some c)
    (hpending : r.status = "PENDING") :
    (patchRegistrationAction db adminId regId now (some "reject") none =
      (db, .validationFailed)) ∧
    (∀ m : String, m.length < 10 →
      patchRegistrationAction db adminId regId now (some "reject") (some m) =
        (db, .validationFailed)) ∧
    (∀ m : String, 10 ≤ m.length → m.length ≤ 500 →
      registrationActionValidation (some "reject") (some m) = true ∧
      (patchRegistrationAction db adminId regId now (some "reject")
          (some m)).1.registrations.find? (fun x => x.id == regId) =
        some { r with status := "REJECTED", reviewedBy := some adminId,
                      reviewedAt := some now, rejectionReason := some m }) ∧
    (registrationActionValidation (some "approve") none = true) := by
  have hrid : r.id = regId := by simpa using List.find?_some hreg
  refine ⟨?_, ?_, ?_, ?_⟩
  · simp [patchRegistrationAction, registrationActionValidation]
  · intro m hm
    simp [patchRegistrationAction, registrationActionValidation]
    omega
  · intro m hm1 hm2
    have hval : registrationActionValidation (some "reject") (some m) = true := by
      simp [registrationActionValidation]
      omega
    refine ⟨hval, ?_⟩
    have hne : ¬(m = "") := by
      intro hemp
      subst hemp
      simp at hm1
    simp only [patchRegistrationAction, hval, if_true]
    simp only [registrationAction, hreg, hs, hu, hc, hpending]
    simp [strTruthy, hne]
    refine ⟨r, ?_, ?_⟩
    · have hpf : ((fun x : Registration => x.id == regId) ∘
          (fun r_1 => if r_1.id = regId then
            { r with status := "REJECTED", reviewedBy := some adminId,
                     reviewedAt := some now, rejectionReason := some m }
            else r_1)) = (fun x : Registration => x.id == regId) := by
        funext x
        by_cases hx : x.id = regId <;> simp [hx, hrid]
      rw [hpf]
      exact hreg
    · intro hcontra
      exact absurd hrid hcontra
  · simp [registrationActionValidation]

/-- Witness for C7 on the concrete store: rejecting r1 with no message fails
validation, rejecting with a short message fails validation, rejecting with
an 18-character reason stores it, and approving with no message validates. -/
theorem reject_message_validation_witness :
    (patchRegistrationAction testDB "adm" "r1" "t0" (some "reject") none =
      (testDB, .validationFailed)) ∧
    (patchRegistrationAction testDB "adm" "r1" "t0" (some "reject")
        (some "too short") = (testDB, .validationFailed)) ∧
    (registrationActionValidation (some "reject")
        (some "Not a good fit now") = true ∧
      (patchRegistrationAction testDB "adm" "r1" "t0" (some "reject")
          (some "Not a good fit now")).1.registrations.find?
          (fun x => x.id == "r1") =
        some { testReg with status := "REJECTED", reviewedBy := some "adm",
                            reviewedAt := some "t0",
                            rejectionReason := some "Not a good fit now" }) ∧
    (registrationActionValidation (some "approve") none = true) :=
  ⟨(reject_message_validation testDB "adm" "r1" "t0"
      testReg testStudent testUser testCourse rfl rfl rfl rfl rfl).1,
   (reject_message_validation testDB "adm" "r1" "t0"
      testReg testStudent testUser testCourse rfl rfl rfl rfl rfl).2.1
     "too short" (by decide),
   (reject_message_validation testDB "adm" "r1" "t0"
      testReg testStudent testUser testCourse rfl rfl rfl rfl rfl).2.2.1
     "Not a good fit now" (by decide) (by decide),
   (reject_message_validation testDB "adm" "r1" "t0"
      testReg testStudent testUser testCourse rfl rfl rfl rfl rfl).2.2.2⟩


/-- When findFirst sees no PENDING-or-APPROVED registration for the pair, the
count of the pair is zero. -/
theorem pendingApprovedCount_eq_zero (db : DB) (sid cid : String)
    (h : findExistingRegistration db sid cid = none) :
    pendingApprovedCount db sid cid = 0 := by
  unfold findExistingRegistration at h
  unfold pendingApprovedCount
  rw [List.find?_eq_none] at h
  rw [List.length_eq_zero, List.filter_eq_nil_iff]
  exact fun a ha => h a ha

/-- The registration-creation tail of POST /registrations preserves the
at-most-one-PENDING-or-APPROVED invariant. -/
theorem createRegistrationIfAbsent_invariant (db : DB) (studentId : String)
    (input : PostRegInput) (freshRegId : String)
    (hinv : registrationInvariant db) :
    registrationInvariant
      (createRegistrationIfAbsent db studentId input freshRegId).1 := by
  unfold createRegistrationIfAbsent
  cases hfind : findExistingRegistration db studentId input.courseId with
  | some r0 => simpa using hinv
  | none =>
    intro sid cid
    have h0 := pendingApprovedCount_eq_zero db studentId input.courseId hfind
    have hle := hinv sid cid
    simp only [pendingApprovedCount] at h0 hle ⊢
    rw [List.filter_append, List.length_append]
    by_cases hmatch : studentId = sid ∧ input.courseId = cid
    · obtain ⟨h1, h2⟩ := hmatch
      subst h1
      subst h2
      rw [h0]
      simp only [List.filter]
      split <;> simp
    · have hnone : ([newRegistrationRecord studentId input freshRegId].filter
          (fun r => r.studentId == sid && r.courseId == cid &&
            (r.status == "PENDING" || r.status == "APPROVED"))).length = 0 := by
        by_cases h1 : studentId = sid <;> by_cases h2 : input.courseId = cid
        · exact absurd ⟨h1, h2⟩ hmatch
        · have hb : (input.courseId == cid) = false := by simpa using h2
          simp [newRegistrationRecord, List.filter, h1, hb]
        · have hb : (studentId == sid) = false := by simpa using h1
          simp [newRegistrationRecord, List.filter, hb]
        · have hb : (studentId == sid) = false := by simpa using h1
          simp [newRegistrationRecord, List.filter, hb]
      rw [hnone]
      omega

/-- C2: POST /registrations preserves the at-most-one-PENDING-or-APPROVED
invariant, and when the named student-course pair already has a PENDING or
APPROVED registration it responds 409 REGISTRATION_EXISTS with the store
unchanged, so no new registration record is created. -/
theorem duplicate_registration_conflict (db : DB) (input : PostRegInput)
    (freshUserId freshStudentId freshRegId : String)
    (hinv : registrationInvariant db) :
    registrationInvariant
      (postRegistration db input freshUserId freshStudentId freshRegId).1 ∧
    (∀ (c : Course) (eu : User) (es : Student) (r0 : Registration),
      db.courses.find? (fun x => x.id == input.courseId) = some c →
      db.users.find? (fun x => x.email == jsToLower input.email) = some eu →
      db.students.find? (fun x => x.userId == eu.id) = some es →
      findExistingRegistration db es.id input.courseId = some r0 →
      postRegistration db input freshUserId freshStudentId freshRegId =
        (db, .err 409 "REGISTRATION_EXISTS"
          "A registration for this course already exists")) := by
  constructor
  · unfold postRegistration
    split
    · simpa using hinv
    · split
      · split
        · exact createRegistrationIfAbsent_invariant _ _ input freshRegId hinv
        · exact createRegistrationIfAbsent_invariant _ _ input freshRegId
            (fun a b => hinv a b)
      · exact createRegistrationIfAbsent_invariant _ _ input freshRegId
          (fun a b => hinv a b)
  · intro c eu es r0 hc hu hstu hex
    simp [postRegistration, createRegistrationIfAbsent, hc, hu, hstu, hex]


/-- A concrete POST /registrations body naming the email of the existing student
and the course of the PENDING registration. -/
def testInput : PostRegInput :=
  { firstName := "Alice", lastName := "Ang", email := "Alice@Ex.COM",
    phone := none, dateOfBirth := none, gender := none, nationality := none,
    address := none, city := none, state := none, postalCode := none,
    country := none, emergencyContactName := none,
    emergencyContactPhone := none, emergencyContactEmail := none,
    previousEducation := none, workExperience := none, courseId := "c1",
    message := none }

/-- Witness for C2 on the concrete store: resubmitting a registration for the
pair that already has PENDING r1 responds 409 and leaves the store unchanged,
and the invariant is preserved. -/
theorem duplicate_registration_conflict_witness :
    registrationInvariant (postRegistration testDB testInput "nu" "ns" "nr").1 ∧
    postRegistration testDB testInput "nu" "ns" "nr" =
      (testDB, .err 409 "REGISTRATION_EXISTS"
        "A registration for this course already exists") :=
  ⟨(duplicate_registration_conflict testDB testInput "nu" "ns" "nr"
      (fun _ _ => List.length_filter_le _ _)).1,
   (duplicate_registration_conflict testDB testInput "nu" "ns" "nr"
      (fun _ _ => List.length_filter_le _ _)).2 testCourse testUser
      testStudent testReg (by decide) (by decide) (by decide) (by decide)⟩

/-- C3: a POST /registrations request with an unknown email creates the user
row with the literal placeholder password and INACTIVE status, and POST
/auth/login answers 401 ACCOUNT_INACTIVE for every non-ACTIVE user whatever
the submitted password and whatever the password comparison returns: the
status check precedes the comparison. -/
theorem inactive_until_approval (db : DB) (input : PostRegInput)
    (freshUserId freshStudentId freshRegId : String) (c : Course)
    (hc : db.courses.find? (fun x => x.id == input.courseId) = some c)
    (hnew : db.users.find? (fun x => x.email == jsToLower input.email) = none) :
    ((postRegistration db input freshUserId freshStudentId freshRegId).1.users =
      db.users ++
        [{ id := freshUserId, email := jsToLower input.email,
           password := "temp_password_will_be_set_on_approval",
           firstName := input.firstName, lastName := input.lastName,
           phone := input.phone, role := "STUDENT", status := "INACTIVE" }]) ∧
    (∀ (u : User) (email password : String) (cmp : String → String → Bool),
      db.users.find? (fun x => x.email == jsToLower email) = some u →
      u.status ≠ "ACTIVE" →
      login db cmp email password =
        .err 401 "ACCOUNT_INACTIVE"
          "Account is inactive. Please contact support.") := by
  constructor
  · simp only [postRegistration, hc, hnew]
    unfold createRegistrationIfAbsent
    split <;> simp
  · intro u email password cmp hfind hst
    simp [login, hfind, hst]

/-- The concrete POST body with an email no user record has. -/
def testInputNew : PostRegInput := { testInput with email := "Bob@New.com" }

/-- Witness for C3 on the concrete store: registering with the unknown email
creates the INACTIVE placeholder-password user, and the INACTIVE user cannot
log in even when the password comparison always succeeds. -/
theorem inactive_until_approval_witness :
    ((postRegistration testDB testInputNew "nu2" "ns2" "nr2").1.users =
      testDB.users ++
        [{ id := "nu2", email := jsToLower testInputNew.email,
           password := "temp_password_will_be_set_on_approval",
           firstName := testInputNew.firstName,
           lastName := testInputNew.lastName, phone := testInputNew.phone,
           role := "STUDENT", status := "INACTIVE" }]) ∧
    login testDB (fun _ _ => true) "Alice@Ex.COM" "anything" =
      .err 401 "ACCOUNT_INACTIVE"
        "Account is inactive. Please contact support." :=
  ⟨(inactive_until_approval testDB testInputNew "nu2" "ns2" "nr2" testCourse
      (by decide) (by decide)).1,
   (inactive_until_approval testDB testInputNew "nu2" "ns2" "nr2" testCourse
      (by decide) (by decide)).2 testUser "Alice@Ex.COM" "anything"
      (fun _ _ => true) (by decide) (by decide)⟩


/-- C4: the authenticateUser middleware realizes the per-request state
machine: no (or non-Bearer) Authorization header yields 401; an expired token
yields 401 with a message distinct from the invalid-token 401; a valid token
whose userId matches no user yields 401; a valid token for a non-ACTIVE user
yields 401; otherwise the middleware attaches id, email, role and status and
passes control on. -/
theorem authenticateUser_state_machine (db : DB)
    (verify : String → TokenVerify) :
    (authenticateUser db verify none =
      .respond 401 "Authentication required"
        "Please provide a valid authentication token") ∧
    (∀ h : String, jsStartsWith h "Bearer " = false →
      authenticateUser db verify (some h) =
        .respond 401 "Authentication required"
          "Please provide a valid authentication token") ∧
    (∀ h : String, jsStartsWith h "Bearer " = true →
      verify (jsSubstrFrom h 7) = .expired →
      authenticateUser db verify (some h) =
        .respond 401 "Token expired"
          "Your session has expired. Please log in again.") ∧
    (∀ h : String, jsStartsWith h "Bearer " = true →
      verify (jsSubstrFrom h 7) = .invalid →
      authenticateUser db verify (some h) =
        .respond 401 "Invalid token" "Authentication token is invalid") ∧
    ("Your session has expired. Please log in again." ≠
      "Authentication token is invalid") ∧
    (∀ (h : String) (p : JWTPayload), jsStartsWith h "Bearer " = true →
      verify (jsSubstrFrom h 7) = .valid p →
      db.users.find? (fun x => x.id == p.userId) = none →
      authenticateUser db verify (some h) =
        .respond 401 "Invalid token" "User not found") ∧
    (∀ (h : String) (p : JWTPayload) (u : User),
      jsStartsWith h "Bearer " = true →
      verify (jsSubstrFrom h 7) = .valid p →
      db.users.find? (fun x => x.id == p.userId) = some u →
      u.status ≠ "ACTIVE" →
      authenticateUser db verify (some h) =
        .respond 401 "Account inactive" "Your account has been deactivated") ∧
    (∀ (h : String) (p : JWTPayload) (u : User),
      jsStartsWith h "Bearer " = true →
      verify (jsSubstrFrom h 7) = .valid p →
      db.users.find? (fun x => x.id == p.userId) = some u →
      u.status = "ACTIVE" →
      authenticateUser db verify (some h) =
        .next { id := u.id, email := u.email, role := u.role,
                status := u.status }) := by
  refine ⟨rfl, ?_, ?_, ?_, by decide, ?_, ?_, ?_⟩
  · intro h hb
    simp [authenticateUser, hb]
  · intro h hb hv
    simp [authenticateUser, hb, hv]
  · intro h hb hv
    simp [authenticateUser, hb, hv]
  · intro h p hb hv hfind
    simp [authenticateUser, hb, hv, hfind]
  · intro h p u hb hv hfind hst
    simp [authenticateUser, hb, hv, hfind, hst]
  · intro h p u hb hv hfind hst
    simp [authenticateUser, hb, hv, hfind, hst]

/-- A concrete token verifier: one expired token, one valid token for the
admin, one valid token for an unknown user, one valid token for the inactive
student; everything else malformed. -/
def testVerify (t : String) : TokenVerify :=
  if t == "tok-expired" then .expired
  else if t == "tok-adm" then
    .valid { userId := "adm", email := "admin@ex.com", role := "ADMIN" }
  else if t == "tok-ghost" then
    .valid { userId := "ghost", email := "g@ex.com", role := "STUDENT" }
  else if t == "tok-u1" then
    .valid { userId := "u1", email := "alice@ex.com", role := "STUDENT" }
  else .invalid

/-- Witness for C4 on the concrete store: each arm of the state machine fires
on a concrete request. -/
theorem authenticateUser_state_machine_witness :
    (authenticateUser testDB testVerify none =
      .respond 401 "Authentication required"
        "Please provide a valid authentication token") ∧
    (authenticateUser testDB testVerify (some "Token tok-adm") =
      .respond 401 "Authentication required"
        "Please provide a valid authentication token") ∧
    (authenticateUser testDB testVerify (some "Bearer tok-expired") =
      .respond 401 "Token expired"
        "Your session has expired. Please log in again.") ∧
    (authenticateUser testDB testVerify (some "Bearer tok-garbage") =
      .respond 401 "Invalid token" "Authentication token is invalid") ∧
    (authenticateUser testDB testVerify (some "Bearer tok-ghost") =
      .respond 401 "Invalid token" "User not found") ∧
    (authenticateUser testDB testVerify (some "Bearer tok-u1") =
      .respond 401 "Account inactive" "Your account has been deactivated") ∧
    (authenticateUser testDB testVerify (some "Bearer tok-adm") =
      .next { id := "adm", email := "admin@ex.com", role := "ADMIN",
              status := "ACTIVE" }) :=
  ⟨(authenticateUser_state_machine testDB testVerify).1,
   (authenticateUser_state_machine testDB testVerify).2.1
     "Token tok-adm" (by decide),
   (authenticateUser_state_machine testDB testVerify).2.2.1
     "Bearer tok-expired" (by decide) (by decide),
   (authenticateUser_state_machine testDB testVerify).2.2.2.1
     "Bearer tok-garbage" (by decide) (by decide),
   (authenticateUser_state_machine testDB testVerify).2.2.2.2.2.1
     "Bearer tok-ghost"
     { userId := "ghost", email := "g@ex.com", role := "STUDENT" }
     (by decide) (by decide) (by decide),
   (authenticateUser_state_machine testDB testVerify).2.2.2.2.2.2.1
     "Bearer tok-u1"
     { userId := "u1", email := "alice@ex.com", role := "STUDENT" }
     testUser (by decide) (by decide) (by decide) (by decide),
   (authenticateUser_state_machine testDB testVerify).2.2.2.2.2.2.2
     "Bearer tok-adm"
     { userId := "adm", email := "admin@ex.com", role := "ADMIN" }
     testAdmin (by decide) (by decide) (by decide) rfl⟩


/-- C5: the error normalizer is total: every error value of every shape
resolves to a response, and when no category of the chain matches the error
the response falls back to status 500 with code INTERNAL_ERROR. -/
theorem errorHandler_total (env : String) (e : Err) :
    (∃ resp : ErrResponse, errorHandler env e = resp) ∧
    (errUnrecognized e = true →
      (errorHandler env e).statusCode = 500 ∧
      (errorHandler env e).code = "INTERNAL_ERROR") := by
  refine ⟨⟨errorHandler env e, rfl⟩, ?_⟩
  intro h
  unfold errUnrecognized at h
  have hres : (errorResolve e).1 = 500 ∧
      (errorResolve e).2.2.1 = "INTERNAL_ERROR" := by
    cases hcls : e.cls with
    | plain =>
      rw [hcls] at h
      simp only [Bool.and_eq_true, Bool.not_eq_true'] at h
      obtain ⟨⟨⟨⟨-, h1⟩, h2⟩, h3⟩, h4⟩ := h
      unfold errorResolve
      rw [hcls]
      simp only [h1, h2, h3]
      cases hsc : e.statusCode with
      | none =>
        simp only [Bool.false_eq_true, if_false]
        by_cases hm : e.message = "" <;> simp [hm]
      | some n =>
        rw [hsc] at h4
        simp only at h4
        have hn : n = 0 := by simpa using h4
        subst hn
        simp only [Bool.false_eq_true, if_false]
        by_cases hm : e.message = "" <;> simp [hm]
    | customError sc c => rw [hcls] at h; simp at h
    | prismaKnownRequest pc t => rw [hcls] at h; simp at h
    | prismaValidation => rw [hcls] at h; simp at h
    | prismaInitialization => rw [hcls] at h; simp at h
    | syntaxErrorWithBody => rw [hcls] at h; simp at h
  obtain ⟨h500, hcode⟩ := hres
  unfold errorHandler
  simp [h500, hcode]

/-- A concrete error value no category recognizes. -/
def testErr : Err :=
  { cls := .plain, name := "WeirdError", message := "boom", stack := none,
    code := none, statusCode := none }

/-- Witness for C5: the unrecognized concrete error resolves to a response
and falls back to 500 INTERNAL_ERROR. -/
theorem errorHandler_total_witness :
    (∃ resp : ErrResponse, errorHandler "test" testErr = resp) ∧
    ((errorHandler "test" testErr).statusCode = 500 ∧
     (errorHandler "test" testErr).code = "INTERNAL_ERROR") :=
  ⟨(errorHandler_total "test" testErr).1,
   (errorHandler_total "test" testErr).2 (by decide)⟩

/-- C6: in production any response the normalizer resolves to a 5xx status
carries the fixed generic message with no stack and no details; in
development the response carries the stack of the error and its original
message. -/
theorem errorHandler_env_modes (e : Err) :
    ((errorHandler "production" e).statusCode ≥ 500 →
      (errorHandler "production" e).error =
        "Something went wrong. Please try again later." ∧
      (errorHandler "production" e).stack = none ∧
      (errorHandler "production" e).details = none) ∧
    ((errorHandler "development" e).stack = e.stack ∧
     (errorHandler "development" e).originalError = some e.message) := by
  constructor
  · intro hge
    unfold errorHandler at hge ⊢
    simp only at hge ⊢
    have hd : decide (500 ≤ (errorResolve e).1) = true := by
      simpa using hge
    simp [hd]
  · unfold errorHandler
    simp

/-- A concrete error that resolves to a 5xx status: an unrecognized Prisma
error code. -/
def testErr5xx : Err :=
  { cls := .prismaKnownRequest "P9999" none, name := "PrismaClientKnownRequestError",
    message := "db down", stack := some "trace", code := none,
    statusCode := none }

/-- Witness for C6: the concrete unrecognized-Prisma-code error is masked in
production and fully reported in development. -/
theorem errorHandler_env_modes_witness :
    ((errorHandler "production" testErr5xx).error =
        "Something went wrong. Please try again later." ∧
      (errorHandler "production" testErr5xx).stack = none ∧
      (errorHandler "production" testErr5xx).details = none) ∧
    ((errorHandler "development" testErr5xx).stack = testErr5xx.stack ∧
     (errorHandler "development" testErr5xx).originalError =
       some testErr5xx.message) :=
  ⟨(errorHandler_env_modes testErr5xx).1 (by decide),
   (errorHandler_env_modes testErr5xx).2⟩


/-- C8: with no page or limit parameter, validation defaults page to 1 and
limit to 10; the handler then answers with the first 10 rows of the ordered
selection (offset 0), at most 10 items, and pages equal to the ceiling of
total / 10 (characterized by the two ceiling inequalities); a supplied page
and limit are accepted exactly when page is at least 1 and limit is between 1
and 100. -/
theorem pagination_defaults (db : DB)
    (orderBy : List Registration → List Registration)
    (sortBy sortOrder q status : Option String)
    (startDate endDate : Option Int) (v : ValidatedRegListQuery)
    (hv : regListQueryValidation
      { page := none, limit := none, sortBy := sortBy,
        sortOrder := sortOrder, q := q, status := status,
        startDate := startDate, endDate := endDate } = some v) :
    v.page = 1 ∧ v.limit = 10 ∧
    getRegistrations db orderBy
        { page := none, limit := none, sortBy := sortBy,
          sortOrder := sortOrder, q := q, status := status,
          startDate := startDate, endDate := endDate } =
      .ok ((orderBy (getRegistrationsWhere db status q)).take 10) 1 10
        (getRegistrationsWhere db status q).length
        (((getRegistrationsWhere db status q).length + 9) / 10) ∧
    ((orderBy (getRegistrationsWhere db status q)).take 10).length ≤ 10 ∧
    ((getRegistrationsWhere db status q).length ≤
        10 * (((getRegistrationsWhere db status q).length + 9) / 10) ∧
      10 * (((getRegistrationsWhere db status q).length + 9) / 10) <
        (getRegistrationsWhere db status q).length + 10) ∧
    (∀ p l : Int,
      (regListQueryValidation
        { page := some p, limit := some l, sortBy := none, sortOrder := none,
          q := none, status := none, startDate := none,
          endDate := none }).isSome ↔
      (1 ≤ p ∧ 1 ≤ l ∧ l ≤ 100)) := by
  have hv' := hv
  unfold regListQueryValidation at hv'
  split at hv'
  case isFalse hcond => exact absurd hv' (by simp)
  case isTrue hcond =>
  have hveq : v =
      { page := 1, limit := 10, sortBy := sortBy,
        sortOrder := sortOrder.getD "desc", q := q, status := status } := by
    have := Option.some.inj hv'
    simp at this
    exact this.symm
  subst hveq
  refine ⟨rfl, rfl, ?_, ?_, ⟨?_, ?_⟩, ?_⟩
  · unfold getRegistrations
    rw [hv]
    simp
  · rw [List.length_take]
    exact min_le_left _ _
  · have hdm := Nat.div_add_mod
      ((getRegistrationsWhere db status q).length + 9) 10
    have hlt : ((getRegistrationsWhere db status q).length + 9) % 10 < 10 :=
      Nat.mod_lt _ (by norm_num)
    omega
  · have hdm := Nat.div_add_mod
      ((getRegistrationsWhere db status q).length + 9) 10
    have hlt : ((getRegistrationsWhere db status q).length + 9) % 10 < 10 :=
      Nat.mod_lt _ (by norm_num)
    omega
  · intro p l
    unfold regListQueryValidation
    constructor
    · intro hsome
      by_contra hnot
      revert hsome
      split
      case isTrue hc =>
        intro _
        apply hnot
        simp at hc
        exact hc
      case isFalse hc => simp
    · intro hpl
      obtain ⟨h1, h2, h3⟩ := hpl
      split
      case isTrue hc => simp
      case isFalse hc =>
        refine absurd ?_ hc
        refine ⟨h1, h2, h3, Or.inr rfl, ?_, ?_, ?_, ?_⟩ <;> simp


/-- The empty GET /registrations query. -/
def testQueryDefault : RegListQuery :=
  { page := none, limit := none, sortBy := none, sortOrder := none,
    q := none, status := none, startDate := none, endDate := none }

/-- The validated form of the empty query. -/
def testValidatedDefault : ValidatedRegListQuery :=
  { page := 1, limit := 10, sortBy := none, sortOrder := "desc",
    q := none, status := none }

/-- Witness for C8 on the concrete store: the empty query validates to page 1
and limit 10, the handler answers with the first 10 rows and the ceiling page
count, and concrete in- and out-of-range page and limit values are accepted
and rejected. -/
theorem pagination_defaults_witness :
    testValidatedDefault.page = 1 ∧ testValidatedDefault.limit = 10 ∧
    getRegistrations testDB (fun l => l) testQueryDefault =
      .ok (((fun l : List Registration => l)
          (getRegistrationsWhere testDB none none)).take 10) 1 10
        (getRegistrationsWhere testDB none none).length
        (((getRegistrationsWhere testDB none none).length + 9) / 10) ∧
    (((fun l : List Registration => l)
        (getRegistrationsWhere testDB none none)).take 10).length ≤ 10 ∧
    ((getRegistrationsWhere testDB none none).length ≤
        10 * (((getRegistrationsWhere testDB none none).length + 9) / 10) ∧
      10 * (((getRegistrationsWhere testDB none none).length + 9) / 10) <
        (getRegistrationsWhere testDB none none).length + 10) ∧
    (∀ p l : Int,
      (regListQueryValidation
        { page := some p, limit := some l, sortBy := none, sortOrder := none,
          q := none, status := none, startDate := none,
          endDate := none }).isSome ↔
      (1 ≤ p ∧ 1 ≤ l ∧ l ≤ 100)) :=
  pagination_defaults testDB (fun l => l) none none none none none none
    testValidatedDefault (by decide)

/-- C9: requireRole answers 401 with no attached identity, 403 when the
attached role is outside the list, and calls through when it is inside;
requireSelfOrAdmin answers 401 with no identity and calls through exactly
when the caller is an ADMIN or the route parameter equals the id of the caller,
answering 403 otherwise. -/
theorem role_gates (roles : List String) (u : AttachedUser)
    (params : List (String × String)) (userIdParam : String) :
    (requireRole roles none = .respond 401 "Authentication required") ∧
    (roles.contains u.role = false →
      requireRole roles (some u) = .respond 403 "Insufficient permissions") ∧
    (roles.contains u.role = true → requireRole roles (some u) = .next) ∧
    (requireSelfOrAdmin userIdParam params none =
      .respond 401 "Authentication required") ∧
    (requireSelfOrAdmin userIdParam params (some u) = .next ↔
      (u.role = "ADMIN" ∨
        (params.find? (fun p => p.1 == userIdParam)).map (fun p => p.2) =
          some u.id)) ∧
    (¬(u.role = "ADMIN" ∨
        (params.find? (fun p => p.1 == userIdParam)).map (fun p => p.2) =
          some u.id) →
      requireSelfOrAdmin userIdParam params (some u) =
        .respond 403 "Access denied") := by
  refine ⟨rfl, ?_, ?_, rfl, ?_, ?_⟩
  · intro h
    have h' : u.role ∉ roles := by simpa using h
    simp [requireRole, h']
  · intro h
    have h' : u.role ∈ roles := by simpa using h
    simp [requireRole, h']
  · constructor
    · intro h
      by_contra hnot
      push_neg at hnot
      obtain ⟨ha, hs⟩ := hnot
      have hs' : (some u.id ==
          (params.find? (fun p => p.1 == userIdParam)).map
            (fun p => p.2)) = false := by
        simp only [beq_eq_false_iff_ne, ne_eq]
        intro heq
        exact hs heq.symm
      simp [requireSelfOrAdmin, ha, hs'] at h
    · intro h
      rcases h with ha | hs
      · simp [requireSelfOrAdmin, ha]
      · have hs' : (some u.id ==
            (params.find? (fun p => p.1 == userIdParam)).map
              (fun p => p.2)) = true := by
          simp [hs]
        simp [requireSelfOrAdmin, hs']
  · intro h
    push_neg at h
    obtain ⟨ha, hs⟩ := h
    have hs' : (some u.id ==
        (params.find? (fun p => p.1 == userIdParam)).map
          (fun p => p.2)) = false := by
      simp only [beq_eq_false_iff_ne, ne_eq]
      intro heq
      exact hs heq.symm
    simp [requireSelfOrAdmin, ha, hs']

/-- The identity authenticateUser attaches for the concrete admin. -/
def testAttachedAdmin : AttachedUser :=
  { id := "adm", email := "admin@ex.com", role := "ADMIN", status := "ACTIVE" }

/-- The identity authenticateUser attaches for an active student. -/
def testAttachedStudent : AttachedUser :=
  { id := "u9", email := "carol@ex.com", role := "STUDENT", status := "ACTIVE" }

/-- Witness for C9 on concrete identities and route parameters: the admin
gate rejects a missing identity with 401 and a student with 403 and admits an
admin; the self-or-admin gate admits the owner of the route id and refuses a
stranger with 403. -/
theorem role_gates_witness :
    (requireRole ["ADMIN"] none = .respond 401 "Authentication required") ∧
    (requireRole ["ADMIN"] (some testAttachedStudent) =
      .respond 403 "Insufficient permissions") ∧
    (requireRole ["ADMIN"] (some testAttachedAdmin) = .next) ∧
    (requireSelfOrAdmin "userId" [("userId", "u9")] none =
      .respond 401 "Authentication required") ∧
    (requireSelfOrAdmin "userId" [("userId", "u9")]
        (some testAttachedStudent) = .next) ∧
    (requireSelfOrAdmin "userId" [("userId", "someone-else")]
        (some testAttachedStudent) = .respond 403 "Access denied") :=
  ⟨(role_gates ["ADMIN"] testAttachedStudent [("userId", "u9")] "userId").1,
   (role_gates ["ADMIN"] testAttachedStudent
      [("userId", "u9")] "userId").2.1 (by decide),
   (role_gates ["ADMIN"] testAttachedAdmin
      [("userId", "u9")] "userId").2.2.1 (by decide),
   (role_gates ["ADMIN"] testAttachedStudent
      [("userId", "u9")] "userId").2.2.2.1,
   (role_gates ["ADMIN"] testAttachedStudent
      [("userId", "u9")] "userId").2.2.2.2.1.mpr (Or.inr (by decide)),
   (role_gates ["ADMIN"] testAttachedStudent
      [("userId", "someone-else")] "userId").2.2.2.2.2 (by decide)⟩

end Eck
